import Mathlib

/-!
Shallow embedding of the go-cli-analytics package (package `analytics`):
a disk-buffered event tracker that appends JSON-encoded events to
`~/<dir>/events`, keeps a pseudo-user id in `~/<dir>/id`, records the time
of the last flush as the mtime of `~/<dir>/last_flush`, and gates tracking
on the absence of `~/<dir>/disable`.

The state directory is modelled as a flat record of the four files.  The
`events` file is modelled as the list of top-level JSON records it holds
(the framing of `json.Encoder` / `json.Decoder`: one value per record,
read back sequentially).  Host-environment failure modes that the package
treats as external (home-directory resolution, mkdir, write failures of
the id and marker files) are not modelled; the remote Segment client is
modelled at the interface boundary: submissions are enqueued and either
all durably delivered or all failed when the client is finalized, which
is where the source checks for a transmission error.
-/

namespace CLIAnalytics

/-- JSON values, the serializable domain of event property values. -/
inductive Json where
  | null
  | bool (b : Bool)
  | num (n : Int)
  | str (s : String)
  | arr (elems : List Json)
  | obj (fields : List (String × Json))

/-- Event used for storage on disk: a name and an optional property map
(`none` models the Go nil map, which serializes as JSON null). -/
structure Event where
  event : String
  properties : Option (List (String × Json))

/-- Go error values produced by the operations we model.  `wrap c e`
models `errors.Wrap(e, c)`. -/
inductive GoError where
  | notExist (path : String)
  | invalidArgument
  | fileAlreadyClosed
  | decodeFailure (msg : String)
  | transmitFailure (msg : String)
  | wrap (context : String) (cause : GoError)
  deriving DecidableEq

/-- The state directory `~/<dir>`: each field is one of the four files,
`none` meaning the file is absent.  Only the mtime of `last_flush`
matters, so it is modelled as a timestamp; only the presence of
`disable` matters, so it is a Bool. -/
structure FS where
  idFile : Option String
  eventsFile : Option (List Json)
  lastFlushMTime : Option Nat
  disableFile : Bool

/-- The state of the `*os.File` handle `a.eventsFile`: nil (never
opened), open, or closed.  The `json.Encoder` field `a.events` is nil
exactly when the handle is `notOpened`: both are assigned together in
`initEvents` and never reset. -/
inductive HandleState where
  | notOpened
  | opened
  | closed
  deriving DecidableEq

/-- The in-memory tracker state (struct `Analytics`): the persisted
pseudo-user id and the events file handle. -/
structure Analytics where
  userID : String
  handle : HandleState

/-- One record handed to the Segment client: (event name, user id,
properties), as built in `Flush`. -/
structure SegmentTrack where
  event : String
  userId : String
  properties : Option (List (String × Json))

/-- json.Marshal of the Go nil / non-nil property map. -/
def encodeProps : Option (List (String × Json)) → Json
  | none => .null
  | some fields => .obj fields

/-- json.Encoder.Encode of an `Event`: one JSON object with the two
tagged fields `event` and `properties`. -/
def encodeEvent (e : Event) : Json :=
  .obj [("event", .str e.event), ("properties", encodeProps e.properties)]

/-- Field lookup of encoding/json object decoding: a duplicated key is
overwritten by later occurrences, so the last binding wins. -/
def fieldLookup (fields : List (String × Json)) (key : String) : Option Json :=
  (fields.reverse.find? fun f => f.1 == key).map Prod.snd

/-- Decoding of the `event` field: an absent key leaves the zero value
(the empty string); a non-string value is a decode error. -/
def decodeEventField (fields : List (String × Json)) : Except GoError String :=
  match fieldLookup fields "event" with
  | none => .ok ""
  | some (.str s) => .ok s
  | some _ => .error (.decodeFailure "event field")

/-- Decoding of the `properties` field: absent or null leaves the nil
map; an object gives the map; anything else is a decode error. -/
def decodePropsField (fields : List (String × Json)) :
    Except GoError (Option (List (String × Json))) :=
  match fieldLookup fields "properties" with
  | none => .ok none
  | some .null => .ok none
  | some (.obj l) => .ok (some l)
  | some _ => .error (.decodeFailure "properties field")

/-- json.Decoder.Decode of one record into an `Event`. -/
def decodeEvent : Json → Except GoError Event
  | .obj fields =>
    match decodeEventField fields with
    | .error e => .error e
    | .ok n =>
      match decodePropsField fields with
      | .error e => .error e
      | .ok p => .ok ⟨n, p⟩
  | _ => .error (.decodeFailure "record is not a JSON object")

/-- The decode loop of `Events`: records are decoded sequentially until
end of data; the first failure aborts. -/
def decodeAll : List Json → Except GoError (List Event)
  | [] => .ok []
  | r :: rs =>
    match decodeEvent r with
    | .error e => .error e
    | .ok ev =>
      match decodeAll rs with
      | .error e => .error e
      | .ok evs => .ok (ev :: evs)

/-- `Analytics.Events`: opens `~/<dir>/events` (a missing file is an
error wrapped with "opening") and decodes all records (a decode failure
is wrapped with "decoding"). -/
def Events (fs : FS) : Except GoError (List Event) :=
  match fs.eventsFile with
  | none => .error (.wrap "opening" (.notExist "events"))
  | some records =>
    match decodeAll records with
    | .error e => .error (.wrap "decoding" e)
    | .ok evs => .ok evs

/-- `Analytics.Size`: the number of events, with an `Events` failure
wrapped with "reading events". -/
def Size (fs : FS) : Except GoError Nat :=
  match Events fs with
  | .error e => .error (.wrap "reading events" e)
  | .ok evs => .ok evs.length

/-- `Analytics.Touch`: writes `~/<dir>/last_flush`, setting its mtime to
the current time (write failures of the marker file are not modelled). -/
def Touch (fs : FS) (now : Nat) : Option GoError × FS :=
  (none, { fs with lastFlushMTime := some now })

/-- `Analytics.LastFlush`: stat of `~/<dir>/last_flush`; on failure the
zero time is returned together with the stat error. -/
def LastFlush (fs : FS) : Nat × Option GoError :=
  match fs.lastFlushMTime with
  | none => (0, some (.notExist "last_flush"))
  | some t => (t, none)

/-- `Analytics.LastFlushDuration`: `time.Now().Sub(lastFlush)`.  The
source swallows a `LastFlush` failure and returns `0, nil` (not the
error), so this function never reports an error. -/
def LastFlushDuration (fs : FS) (now : Nat) : Int × Option GoError :=
  match LastFlush fs with
  | (_, some _) => (0, none)
  | (t, none) => ((now : Int) - (t : Int), none)

/-- `(*os.File).Close` on the three handle states: a nil receiver
returns os.ErrInvalid (the stdlib guards the nil case, it does not
fault), an open handle closes, an already-closed handle returns
os.ErrClosed. -/
def fileClose : HandleState → Option GoError × HandleState
  | .notOpened => (some .invalidArgument, .notOpened)
  | .opened => (none, .closed)
  | .closed => (some .fileAlreadyClosed, .closed)

/-- `Analytics.Close`: closes the underlying events file descriptor. -/
def Close (a : Analytics) : Option GoError × Analytics :=
  match fileClose a.handle with
  | (e, h) => (e, { a with handle := h })

/-- `Analytics.Track`: a no-op when the encoder `a.events` is nil (never
opened); otherwise encodes one `Event` through the handle.  In the
single-process model the open handle writes to the `events` path; a
write through a closed handle is the "file already closed" error. -/
def Track (a : Analytics) (fs : FS) (name : String)
    (props : Option (List (String × Json))) : Option GoError × FS :=
  match a.handle with
  | .notOpened => (none, fs)
  | .opened =>
    (none, { fs with
      eventsFile := some (fs.eventsFile.getD [] ++ [encodeEvent ⟨name, props⟩]) })
  | .closed => (some .fileAlreadyClosed, fs)

/-- `os.Remove` of `~/<dir>/events`. -/
def removeEvents (fs : FS) : Option GoError × FS :=
  match fs.eventsFile with
  | none => (some (.notExist "events"), fs)
  | some _ => (none, { fs with eventsFile := none })

/-- The outcome of a flush transaction: the returned error, the tracker
and directory states afterwards, and the records durably delivered to
the remote collector (empty unless the client finalization succeeded). -/
structure FlushResult where
  err : Option GoError
  tracker : Analytics
  fs : FS
  sent : List SegmentTrack

/-- `Analytics.Flush`: close the handle, read all buffered events, hand
each to the Segment client, finalize the client (where a transmission
failure surfaces: `clientCloseErr` is the external collaborator outcome
of `client.Close()`), touch the marker, and delete the log file.  Each
failure short-circuits with a wrapped error. -/
def Flush (a : Analytics) (fs : FS) (now : Nat)
    (clientCloseErr : Option GoError) : FlushResult :=
  match Close a with
  | (some e, a1) => ⟨some (.wrap "closing" e), a1, fs, []⟩
  | (none, a1) =>
    match Events fs with
    | .error e => ⟨some (.wrap "reading events" e), a1, fs, []⟩
    | .ok events =>
      let batch := events.map fun ev => SegmentTrack.mk ev.event a.userID ev.properties
      match clientCloseErr with
      | some e => ⟨some (.wrap "closing client" e), a1, fs, []⟩
      | none =>
        match Touch fs now with
        | (some e, _) => ⟨some (.wrap "touching" e), a1, fs, batch⟩
        | (none, fs1) =>
          match removeEvents fs1 with
          | (rerr, fs2) => ⟨rerr, a1, fs2, batch⟩

/-- `Analytics.ConditionalFlush`: compute the age and the size, then
flush when `size >= aboveSize`, else flush when `age >= aboveDuration`,
else close.  A failure from either computation is returned with no
action taken (the age branch is dead in practice: `LastFlushDuration`
never reports an error). -/
def ConditionalFlush (a : Analytics) (fs : FS) (now : Nat)
    (clientCloseErr : Option GoError) (aboveSize aboveDuration : Int) :
    FlushResult :=
  match LastFlushDuration fs now with
  | (_, some e) => ⟨some e, a, fs, []⟩
  | (age, none) =>
    match Size fs with
    | .error e => ⟨some e, a, fs, []⟩
    | .ok size =>
      if (size : Int) ≥ aboveSize then Flush a fs now clientCloseErr
      else if age ≥ aboveDuration then Flush a fs now clientCloseErr
      else
        match Close a with
        | (e, a1) => ⟨e, a1, fs, []⟩

/-- `Analytics.Enabled`: true iff `~/<dir>/disable` does not exist (a
stat of an existing file succeeds, so no error is produced in the
model). -/
def Enabled (fs : FS) : Bool × Option GoError :=
  if fs.disableFile then (false, none) else (true, none)

/-- `Analytics.initID`: read `~/<dir>/id` and use its contents verbatim
when present; otherwise persist a freshly generated id and touch the
flush marker.  The generator is an external collaborator, passed as
`freshID`; generation and write failures are not modelled. -/
def initID (fs : FS) (freshID : String) (now : Nat) : String × FS :=
  match fs.idFile with
  | some contents => (contents, fs)
  | none =>
    match Touch { fs with idFile := some freshID } now with
    | (_, fs1) => (freshID, fs1)

/-- `Analytics.initEvents`: open `~/<dir>/events` with
O_APPEND|O_CREATE|O_RDWR, creating it empty when absent and keeping its
contents when present (open failures are not modelled). -/
def initEvents (fs : FS) : HandleState × FS :=
  (.opened, { fs with eventsFile := some (fs.eventsFile.getD []) })

/-- `Analytics.init`, run by `New`: check the opt-out gate and stop with
an inert tracker when disabled; otherwise prepare the id and open the
events log. -/
def init (fs : FS) (freshID : String) (now : Nat) : Analytics × FS :=
  match Enabled fs with
  | (enabled, _) =>
    if !enabled then (⟨"", .notOpened⟩, fs)
    else
      match initID fs freshID now with
      | (uid, fs1) =>
        match initEvents fs1 with
        | (h, fs2) => (⟨uid, h⟩, fs2)

/-- A state directory with none of the four files present. -/
def emptyFS : FS := ⟨none, none, none, false⟩

/-- A sequence of `Track` calls (the returned errors are all nil on an
open handle, the only case the claims use this helper for). -/
def trackAll (a : Analytics) (fs : FS) : List Event → FS
  | [] => fs
  | e :: es => trackAll a (Track a fs e.event e.properties).2 es

/-! Concrete sample states used by witnesses and counterexamples. -/

/-- A populated state directory: an id file, one buffered event, a flush
marker of mtime 0, not opted out. -/
def sampleFS : FS := ⟨some "u", some [encodeEvent ⟨"a", none⟩], some 0, false⟩

/-- A state directory with no events file (so reading events fails). -/
def noLogFS : FS := ⟨some "u", none, some 0, false⟩

/-! Helper lemmas shared by several claims. -/

theorem decodeEvent_encodeEvent (e : Event) : decodeEvent (encodeEvent e) = .ok e := by
  obtain ⟨n, p⟩ := e
  cases p <;> rfl

theorem decodeAll_map_encodeEvent (evs : List Event) :
    decodeAll (evs.map encodeEvent) = .ok evs := by
  induction evs with
  | nil => rfl
  | cons e es ih => simp [decodeAll, decodeEvent_encodeEvent, ih]

theorem decodeAll_append (xs ys : List Json) (u v : List Event)
    (hx : decodeAll xs = .ok u) (hy : decodeAll ys = .ok v) :
    decodeAll (xs ++ ys) = .ok (u ++ v) := by
  induction xs generalizing u with
  | nil =>
    simp only [decodeAll] at hx
    cases hx
    simpa using hy
  | cons r rs ih =>
    simp only [decodeAll] at hx ⊢
    cases hr : decodeEvent r with
    | error e => simp [hr] at hx
    | ok ev =>
      simp only [hr] at hx
      cases hrs : decodeAll rs with
      | error e => simp [hrs] at hx
      | ok evs =>
        simp only [hrs] at hx
        cases hx
        simp [ih evs hrs]

theorem Events_ok_inv (fs : FS) (evs : List Event) (h : Events fs = .ok evs) :
    ∃ l, fs.eventsFile = some l ∧ decodeAll l = .ok evs := by
  cases hf : fs.eventsFile with
  | none => simp [Events, hf] at h
  | some l =>
    refine ⟨l, rfl, ?_⟩
    simp only [Events, hf] at h
    cases hd : decodeAll l with
    | error e => simp [hd] at h
    | ok u => simpa [hd] using h

theorem LastFlushDuration_err_none (fs : FS) (now : Nat) :
    (LastFlushDuration fs now).2 = none := by
  cases hf : fs.lastFlushMTime <;> simp [LastFlushDuration, LastFlush, hf]

theorem trackAll_opened (a : Analytics) (h : a.handle = .opened) :
    ∀ (evs : List Event) (fs : FS) (l : List Json), fs.eventsFile = some l →
      trackAll a fs evs = { fs with eventsFile := some (l ++ evs.map encodeEvent) } := by
  intro evs
  induction evs with
  | nil =>
    intro fs l hl
    simp [trackAll, ← hl]
  | cons e es ih =>
    intro fs l hl
    simp only [trackAll, Track, h, hl, Option.getD_some]
    rw [ih _ (l ++ [encodeEvent ⟨e.event, e.properties⟩]) rfl]
    simp

theorem ConditionalFlush_ok_cases (a : Analytics) (fs : FS) (now : Nat)
    (cerr : Option GoError) (aS aD : Int) (n : Nat) (h : Size fs = .ok n) :
    ConditionalFlush a fs now cerr aS aD =
      if (n : Int) ≥ aS then Flush a fs now cerr
      else if (LastFlushDuration fs now).1 ≥ aD then Flush a fs now cerr
      else ⟨(Close a).1, (Close a).2, fs, []⟩ := by
  have hn := LastFlushDuration_err_none fs now
  unfold ConditionalFlush
  cases hL : LastFlushDuration fs now with
  | mk age aerr =>
    rw [hL] at hn
    simp only at hn
    subst hn
    have hage : (LastFlushDuration fs now).1 = age := by rw [hL]
    cases hC : Close a with
    | mk ce a1 => simp [h, hage, hC]

/-! The claims. -/

/-- C9: Close is safe to call even if the log handle was never opened
(the stdlib nil guard returns os.ErrInvalid instead of faulting), and a
repeated Close after any Close returns an error value and leaves the
state unchanged rather than panicking. -/
theorem close_safe (a : Analytics) :
    Close { a with handle := .notOpened } =
      (some .invalidArgument, { a with handle := .notOpened }) ∧
    ((Close (Close a).2).1).isSome = true ∧
    (Close (Close a).2).2 = (Close a).2 := by
  refine ⟨rfl, ?_, ?_⟩ <;> cases ha : a.handle <;> simp [Close, fileClose, ha]

/-- C10: on a tracker whose log handle was never opened, Flush fails at
its initial close step with a non-nil wrapped error, transmits nothing,
and leaves the tracker and every file of the state directory
unchanged. -/
theorem flush_never_opened (a : Analytics) (fs : FS) (now : Nat)
    (cerr : Option GoError) (h : a.handle = .notOpened) :
    Flush a fs now cerr = ⟨some (.wrap "closing" .invalidArgument), a, fs, []⟩ := by
  obtain ⟨u, hdl⟩ := a
  simp only [Analytics.handle] at h
  subst h
  rfl

/-- Witness for C10 at a concrete never-opened tracker. -/
theorem flush_never_opened_witness :
    Flush ⟨"u", .notOpened⟩ sampleFS 3 none =
      ⟨some (.wrap "closing" .invalidArgument), ⟨"u", .notOpened⟩, sampleFS, []⟩ :=
  flush_never_opened ⟨"u", .notOpened⟩ sampleFS 3 none rfl

/-- C4: when the age computation or the size computation reports an
error, ConditionalFlush returns that error with the tracker state, the
state directory, and the set of transmitted records all untouched.  (The
age disjunct is dead in the code: LastFlushDuration swallows the stat
error of the marker, see the C5 theorems.) -/
theorem conditionalFlush_error_propagation (a : Analytics) (fs : FS) (now : Nat)
    (cerr : Option GoError) (aS aD : Int) (e : GoError)
    (h : (LastFlushDuration fs now).2 = some e ∨ Size fs = .error e) :
    ConditionalFlush a fs now cerr aS aD = ⟨some e, a, fs, []⟩ := by
  cases h with
  | inl hl => rw [LastFlushDuration_err_none] at hl; exact absurd hl (by simp)
  | inr hr =>
    have hn := LastFlushDuration_err_none fs now
    unfold ConditionalFlush
    cases hL : LastFlushDuration fs now with
    | mk age aerr =>
      rw [hL] at hn
      simp only at hn
      subst hn
      simp [hr]

/-- Witness for C4: a state directory whose events file is missing makes
the size computation fail, and ConditionalFlush propagates it with no
action. -/
theorem conditionalFlush_error_propagation_witness :
    ConditionalFlush ⟨"u", .opened⟩ noLogFS 5 none 1 1 =
      ⟨some (.wrap "reading events" (.wrap "opening" (.notExist "events"))),
        ⟨"u", .opened⟩, noLogFS, []⟩ :=
  conditionalFlush_error_propagation ⟨"u", .opened⟩ noLogFS 5 none 1 1
    (.wrap "reading events" (.wrap "opening" (.notExist "events"))) (Or.inr rfl)

/-- C3: when age and size are computed without error, ConditionalFlush
flushes whenever size is at least aboveSize, otherwise flushes whenever
age is at least aboveDuration, and otherwise only closes the handle,
leaving the state directory (and so the buffered events) untouched. -/
theorem conditionalFlush_decision (a : Analytics) (fs : FS) (now : Nat)
    (cerr : Option GoError) (aS aD : Int) (n : Nat) (h : Size fs = .ok n) :
    ConditionalFlush a fs now cerr aS aD =
      if (n : Int) ≥ aS then Flush a fs now cerr
      else if (LastFlushDuration fs now).1 ≥ aD then Flush a fs now cerr
      else ⟨(Close a).1, (Close a).2, fs, []⟩ :=
  ConditionalFlush_ok_cases a fs now cerr aS aD n h

/-- Witness for C3 at a concrete state holding one buffered event, with
a size threshold of 1: the size branch flushes. -/
theorem conditionalFlush_decision_witness :
    ConditionalFlush ⟨"u", .opened⟩ sampleFS 7 none 1 100 =
      Flush ⟨"u", .opened⟩ sampleFS 7 none := by
  have h := conditionalFlush_decision ⟨"u", .opened⟩ sampleFS 7 none 1 100 1 rfl
  simpa using h

/-- C8: when the identity file already exists, initID returns its
contents verbatim and leaves the state directory unchanged (in
particular the identity file is never rewritten), and two successive
constructions against the same state directory yield the same
identifier. -/
theorem initID_stable (fs : FS) (g1 g2 : String) (t1 t2 : Nat) (uid : String)
    (h : fs.idFile = some uid) :
    initID fs g1 t1 = (uid, fs) ∧
    (init fs g1 t1).1.userID = (init (init fs g1 t1).2 g2 t2).1.userID := by
  refine ⟨by simp [initID, h], ?_⟩
  cases hd : fs.disableFile with
  | true => simp [init, Enabled, hd]
  | false => simp [init, Enabled, hd, initID, h, initEvents]

/-- Witness for C8 at a state directory whose id file holds "u". -/
theorem initID_stable_witness :
    initID noLogFS "g1" 4 = ("u", noLogFS) ∧
    (init noLogFS "g1" 4).1.userID = (init (init noLogFS "g1" 4).2 "g2" 5).1.userID :=
  initID_stable noLogFS "g1" "g2" 4 5 "u" rfl

/-- C5 counterexample: with the flush marker absent, one buffered event,
a size threshold of 2 and the positive finite age threshold 1, the
computed age is 0 (not extremely large) and ConditionalFlush only closes
the handle: the result is the Close outcome with the state directory
unchanged and nothing transmitted, so the state is not flush-worthy. -/
theorem lastFlush_absent_counterexample :
    LastFlushDuration ⟨some "u", some [encodeEvent ⟨"a", none⟩], none, false⟩ 1000000 =
      (0, none) ∧
    ConditionalFlush ⟨"u", .opened⟩
        ⟨some "u", some [encodeEvent ⟨"a", none⟩], none, false⟩ 1000000 none 2 1 =
      ⟨none, ⟨"u", .closed⟩,
        ⟨some "u", some [encodeEvent ⟨"a", none⟩], none, false⟩, []⟩ :=
  ⟨rfl, rfl⟩

/-- C5 amended: when the flush marker is absent, LastFlushDuration
swallows the stat error and reports age 0 with no error, treating the
state as flushed just now; consequently an age-based ConditionalFlush
with a positive threshold (and size below its threshold) closes instead
of flushing. -/
theorem lastFlush_absent_treated_as_recent (fs : FS) (a : Analytics) (now : Nat)
    (cerr : Option GoError) (aS aD : Int) (n : Nat)
    (hm : fs.lastFlushMTime = none) (hs : Size fs = .ok n)
    (hn : (n : Int) < aS) (hd : 0 < aD) :
    LastFlushDuration fs now = (0, none) ∧
    ConditionalFlush a fs now cerr aS aD = ⟨(Close a).1, (Close a).2, fs, []⟩ := by
  refine ⟨by simp [LastFlushDuration, LastFlush, hm], ?_⟩
  rw [ConditionalFlush_ok_cases a fs now cerr aS aD n hs]
  have h1 : ¬ ((n : Int) ≥ aS) := not_le.mpr hn
  have h2 : (LastFlushDuration fs now).1 = 0 := by simp [LastFlushDuration, LastFlush, hm]
  have h3 : ¬ ((LastFlushDuration fs now).1 ≥ aD) := by rw [h2]; exact not_le.mpr hd
  simp [h1, h3]

/-- Witness for the amended C5 at a concrete marker-less state. -/
theorem lastFlush_absent_treated_as_recent_witness :
    LastFlushDuration ⟨some "u", some [encodeEvent ⟨"a", none⟩], none, false⟩ 99 =
      (0, none) ∧
    ConditionalFlush ⟨"u", .opened⟩
        ⟨some "u", some [encodeEvent ⟨"a", none⟩], none, false⟩ 99 none 5 1 =
      ⟨(Close ⟨"u", .opened⟩).1, (Close ⟨"u", .opened⟩).2,
        ⟨some "u", some [encodeEvent ⟨"a", none⟩], none, false⟩, []⟩ :=
  lastFlush_absent_treated_as_recent
    ⟨some "u", some [encodeEvent ⟨"a", none⟩], none, false⟩ ⟨"u", .opened⟩ 99 none 5 1 1
    rfl rfl (by decide) (by decide)

/-- C7 counterexample: on a tracker whose handle was opened and then
closed, the log handle is not open, yet Track neither succeeds as a
no-op nor appends: it returns the file-already-closed error and changes
nothing. -/
theorem track_closed_counterexample :
    (Track ⟨"u", .closed⟩ sampleFS "x" none).1 = some .fileAlreadyClosed ∧
    (Track ⟨"u", .closed⟩ sampleFS "x" none).2 = sampleFS :=
  ⟨rfl, rfl⟩

/-- C7 amended: Track succeeds as a no-op when the encoder was never
initialized (disabled or failed-init state), appends exactly one event
carrying exactly the given name and property map when the handle is
open, and returns the file-already-closed error without appending when
the handle has been closed. -/
theorem track_tristate (a : Analytics) (fs : FS) (n : String)
    (p : Option (List (String × Json))) (l : List Json) (evs : List Event)
    (hl : fs.eventsFile = some l) (hd : decodeAll l = .ok evs) :
    Track a fs n p = (match a.handle with
      | .notOpened => (none, fs)
      | .opened => (none, { fs with eventsFile := some (l ++ [encodeEvent ⟨n, p⟩]) })
      | .closed => (some .fileAlreadyClosed, fs)) ∧
    Events (Track a fs n p).2 = (match a.handle with
      | .opened => .ok (evs ++ [⟨n, p⟩])
      | _ => .ok evs) := by
  have happ : decodeAll (l ++ [encodeEvent ⟨n, p⟩]) = .ok (evs ++ [⟨n, p⟩]) :=
    decodeAll_append l [encodeEvent ⟨n, p⟩] evs [⟨n, p⟩] hd
      (by simpa using decodeAll_map_encodeEvent [⟨n, p⟩])
  cases ha : a.handle with
  | notOpened => simp [Track, ha, Events, hl, hd]
  | opened => simp [Track, ha, hl, Events, happ]
  | closed => simp [Track, ha, Events, hl, hd]

/-- Witness for the amended C7: an open-handle Track appends one record
whose decoded form carries the given name and properties. -/
theorem track_tristate_witness :
    Track ⟨"u", .opened⟩ sampleFS "b" (some [("x", .num 1)]) =
      (none,
        { sampleFS with
          eventsFile := some ([encodeEvent ⟨"a", none⟩] ++
            [encodeEvent ⟨"b", some [("x", .num 1)]⟩]) }) ∧
    Events (Track ⟨"u", .opened⟩ sampleFS "b" (some [("x", .num 1)])).2 =
      .ok ([⟨"a", none⟩] ++ [⟨"b", some [("x", .num 1)]⟩]) :=
  track_tristate ⟨"u", .opened⟩ sampleFS "b" (some [("x", .num 1)])
    [encodeEvent ⟨"a", none⟩] [⟨"a", none⟩] rfl rfl

theorem Flush_success_shape (a : Analytics) (fs : FS) (now : Nat)
    (cerr : Option GoError) (h : (Flush a fs now cerr).err = none) :
    ∃ evs, a.handle = .opened ∧ Events fs = .ok evs ∧ cerr = none ∧
      Flush a fs now cerr =
        ⟨none, { a with handle := .closed },
          { fs with eventsFile := none, lastFlushMTime := some now },
          evs.map fun ev => SegmentTrack.mk ev.event a.userID ev.properties⟩ := by
  cases ha : a.handle with
  | notOpened => simp [Flush, Close, fileClose, ha] at h
  | closed => simp [Flush, Close, fileClose, ha] at h
  | opened =>
    cases hE : Events fs with
    | error e => simp [Flush, Close, fileClose, ha, hE] at h
    | ok evs =>
      cases cerr with
      | some e => simp [Flush, Close, fileClose, ha, hE] at h
      | none =>
        obtain ⟨l, hl, _⟩ := Events_ok_inv fs evs hE
        refine ⟨evs, ?_, ?_, rfl, ?_⟩ <;> try rfl
        obtain ⟨u, hdl⟩ := a
        simp only [Analytics.handle] at ha
        subst ha
        simp [Flush, Close, fileClose, hE, Touch, removeEvents, hl]

/-- C2 counterexample: a concrete Flush that completes successfully (nil
error), after which Size does not return 0 with no error and Events does
not return an empty sequence with no error: both report the missing
events file, because Flush deleted it. -/
theorem flush_then_size_counterexample :
    (Flush ⟨"u", .opened⟩ sampleFS 9 none).err = none ∧
    Size (Flush ⟨"u", .opened⟩ sampleFS 9 none).fs =
      .error (.wrap "reading events" (.wrap "opening" (.notExist "events"))) ∧
    Events (Flush ⟨"u", .opened⟩ sampleFS 9 none).fs =
      .error (.wrap "opening" (.notExist "events")) :=
  ⟨rfl, rfl, rfl⟩

/-- C2 amended: a successful Flush deletes the events file, so an
immediate Size or Events on the same state reports the missing file as
an error (Size carries its 0 alongside the error); the log is empty only
in the sense that the file is gone, and after the next construction,
which recreates an empty log, Events returns the empty sequence and Size
returns 0, both with no error. -/
theorem flush_success_log_deleted (a : Analytics) (fs : FS) (now : Nat)
    (cerr : Option GoError) (g : String) (t : Nat)
    (h : (Flush a fs now cerr).err = none) (hdis : fs.disableFile = false) :
    (Flush a fs now cerr).fs.eventsFile = none ∧
    Events (Flush a fs now cerr).fs = .error (.wrap "opening" (.notExist "events")) ∧
    Size (Flush a fs now cerr).fs =
      .error (.wrap "reading events" (.wrap "opening" (.notExist "events"))) ∧
    Events (init (Flush a fs now cerr).fs g t).2 = .ok [] ∧
    Size (init (Flush a fs now cerr).fs g t).2 = .ok 0 := by
  obtain ⟨evs, ha, hE, hc, hFl⟩ := Flush_success_shape a fs now cerr h
  rw [hFl]
  cases hidf : fs.idFile <;>
    simp [init, Enabled, hdis, initID, hidf, initEvents, Touch, Events, Size, decodeAll]

/-- Witness for the amended C2 at a concrete successful flush. -/
theorem flush_success_log_deleted_witness :
    (Flush ⟨"u", .opened⟩ sampleFS 9 none).fs.eventsFile = none ∧
    Events (Flush ⟨"u", .opened⟩ sampleFS 9 none).fs =
      .error (.wrap "opening" (.notExist "events")) ∧
    Size (Flush ⟨"u", .opened⟩ sampleFS 9 none).fs =
      .error (.wrap "reading events" (.wrap "opening" (.notExist "events"))) ∧
    Events (init (Flush ⟨"u", .opened⟩ sampleFS 9 none).fs "g" 10).2 = .ok [] ∧
    Size (init (Flush ⟨"u", .opened⟩ sampleFS 9 none).fs "g" 10).2 = .ok 0 :=
  flush_success_log_deleted ⟨"u", .opened⟩ sampleFS 9 none "g" 10 rfl rfl

/-- C6: on a tracker freshly constructed over an empty state directory
(enabled, so the log is opened and created empty), a sequence of Track
calls followed by Events returns exactly the tracked events, in order,
with names and property maps preserved exactly through the on-disk
encode and decode. -/
theorem track_events_round_trip (evs : List Event) (g : String) (t : Nat) :
    Events (trackAll (init emptyFS g t).1 (init emptyFS g t).2 evs) = .ok evs := by
  have h1 : (init emptyFS g t).1 = ⟨g, .opened⟩ := rfl
  have h2 : (init emptyFS g t).2 = ⟨some g, some [], some t, false⟩ := rfl
  rw [h1, h2, trackAll_opened ⟨g, .opened⟩ rfl evs ⟨some g, some [], some t, false⟩ [] rfl]
  simp [Events, decodeAll_map_encodeEvent]

/-- C1: when the transmission step of the flush transaction fails (the
client finalization reports the error, which is where the source checks
the remote submission), Flush returns that failure wrapped, delivers
nothing, and leaves the whole state directory intact: the event log is
not deleted and the flush marker is untouched.  Consequently the next
construction over the same directory, after any further Track calls,
flushes the same buffered events plus the ones appended since, giving
at-least-once delivery. -/
theorem flush_transmit_failure_at_least_once (a : Analytics) (fs : FS)
    (now now2 : Nat) (e : GoError) (uid g2 : String) (evs more : List Event)
    (hopen : a.handle = .opened) (hev : Events fs = .ok evs)
    (hid : fs.idFile = some uid) (hdis : fs.disableFile = false) :
    (Flush a fs now (some e)).err = some (.wrap "closing client" e) ∧
    (Flush a fs now (some e)).fs = fs ∧
    (Flush a fs now (some e)).sent = [] ∧
    (Flush (init fs g2 now2).1 (trackAll (init fs g2 now2).1 (init fs g2 now2).2 more)
        now2 none).sent
      = (evs ++ more).map fun ev => SegmentTrack.mk ev.event uid ev.properties := by
  obtain ⟨l, hl, hdec⟩ := Events_ok_inv fs evs hev
  have hfail : Flush a fs now (some e) =
      ⟨some (.wrap "closing client" e), { a with handle := .closed }, fs, []⟩ := by
    simp [Flush, Close, fileClose, hopen, hev]
  refine ⟨by rw [hfail], by rw [hfail], by rw [hfail], ?_⟩
  have hinit1 : (init fs g2 now2).1 = ⟨uid, .opened⟩ := by
    simp [init, Enabled, hdis, initID, hid, initEvents]
  have hinit2 : (init fs g2 now2).2 = { fs with eventsFile := some l } := by
    simp [init, Enabled, hdis, initID, hid, initEvents, hl]
  rw [hinit1, hinit2,
    trackAll_opened ⟨uid, .opened⟩ rfl more { fs with eventsFile := some l } l rfl]
  have hEv2 : Events { fs with eventsFile := some (l ++ more.map encodeEvent) } =
      .ok (evs ++ more) := by
    simp [Events, decodeAll_append l (more.map encodeEvent) evs more hdec
      (decodeAll_map_encodeEvent more)]
  simp [Flush, Close, fileClose, hEv2, Touch, removeEvents]

/-- Witness for C1: one buffered event, a failing client finalization,
then a reconstruction, one more Track, and a successful flush delivering
both records under the persisted id. -/
theorem flush_transmit_failure_at_least_once_witness :
    (Flush ⟨"u", .opened⟩ sampleFS 5 (some (.transmitFailure "boom"))).err =
      some (.wrap "closing client" (.transmitFailure "boom")) ∧
    (Flush ⟨"u", .opened⟩ sampleFS 5 (some (.transmitFailure "boom"))).fs = sampleFS ∧
    (Flush ⟨"u", .opened⟩ sampleFS 5 (some (.transmitFailure "boom"))).sent = [] ∧
    (Flush (init sampleFS "g2" 9).1
        (trackAll (init sampleFS "g2" 9).1 (init sampleFS "g2" 9).2
          [⟨"b", some [("x", .num 1)]⟩]) 9 none).sent
      = (([⟨"a", none⟩, ⟨"b", some [("x", .num 1)]⟩] : List Event).map
          fun ev => SegmentTrack.mk ev.event "u" ev.properties) :=
  flush_transmit_failure_at_least_once ⟨"u", .opened⟩ sampleFS 5 9
    (.transmitFailure "boom") "u" "g2" [⟨"a", none⟩] [⟨"b", some [("x", .num 1)]⟩]
    rfl rfl rfl rfl

end CLIAnalytics
